import Mathlib

/-!
# Verification of the Sequential Agent Orchestration & Supervision Engine

Shallow embedding of the claude-telegram-bot core (request queue, sequential
worker, heartbeat scheduler, message-threading aggregator, process lifecycle
tracking, streaming throttler, crash-loop guard, error classification) and
proofs of the specification's testable properties against it.

Each embedded definition is translated from the Python source file named in
its doc comment.  Timestamps are modelled as rationals, Python strings as
Lean `String`, Python dicts as association lists or functions.
-/

namespace TelegramBot

/-! ## String primitives

Python string predicates used by several handlers, modelled on the string's
character sequence (Python strings index by code point). -/

/-- Python `text.startswith(marker)` — marker is a prefix of the text's
character sequence. -/
def starts_with (text marker : String) : Bool :=
  marker.data.isPrefixOf text.data

/-- Python `text.endswith(marker)` — marker is a suffix of the text's
character sequence. -/
def ends_with (text marker : String) : Bool :=
  marker.data.reverse.isPrefixOf text.data.reverse

/-! ## Crash-loop guard (src/main.py)

`_crash_times` is a `deque(maxlen=10)` of crash timestamps appended by
`resilient_main` on every unhandled failure.  `detect_crash_loop` reads it.
-/

/-- From `src/main.py` lines 241-254:

```
def detect_crash_loop() -> bool:
    if len(_crash_times) < 5:
        return False
    now = time.time()
    recent_crashes = [t for t in _crash_times if now - t < 60]
    if len(recent_crashes) >= 5:
        return True
    return False
```

`crash_times` is the recorded buffer, `now` the evaluation time. -/
def detect_crash_loop (crash_times : List ℚ) (now : ℚ) : Bool :=
  if crash_times.length < 5 then
    false
  else
    let recent_crashes := crash_times.filter (fun t => now - t < 60)
    if 5 ≤ recent_crashes.length then true else false

/-- C2: the crash-loop guard reports a loop exactly when at least 5 recorded
crash timestamps fall in the most recent 60-second window at evaluation time;
5 timestamps all inside that window trigger it, and 5 timestamps spanning 61
or more seconds (evaluated no earlier than the latest of them) do not. -/
theorem detect_crash_loop_spec :
    (∀ (ts : List ℚ) (now : ℚ),
      detect_crash_loop ts now = true ↔
        5 ≤ (ts.filter (fun t => now - t < 60)).length) ∧
    (∀ (ts : List ℚ) (now : ℚ), ts.length = 5 →
      (∀ t ∈ ts, now - t < 60) → detect_crash_loop ts now = true) ∧
    (∀ (ts : List ℚ) (now : ℚ), ts.length = 5 →
      (∃ a ∈ ts, ∃ b ∈ ts, 61 ≤ b - a) → (∀ t ∈ ts, t ≤ now) →
      detect_crash_loop ts now = false) := by
  have hiff : ∀ (ts : List ℚ) (now : ℚ),
      detect_crash_loop ts now = true ↔
        5 ≤ (ts.filter (fun t => now - t < 60)).length := by
    intro ts now
    unfold detect_crash_loop
    by_cases hlen : ts.length < 5
    · simp only [hlen, if_true]
      constructor
      · intro h; exact absurd h (Bool.false_ne_true)
      · intro h
        have hle : (ts.filter (fun t => now - t < 60)).length ≤ ts.length :=
          List.length_filter_le _ _
        omega
    · simp only [hlen, if_false]
      by_cases hrec : 5 ≤ (ts.filter (fun t => now - t < 60)).length
      · simp [hrec]
      · simp [hrec]
  refine ⟨hiff, ?_, ?_⟩
  · intro ts now h5 hall
    rw [hiff]
    have : ts.filter (fun t => now - t < 60) = ts := by
      apply List.filter_eq_self.mpr
      intro a ha
      exact decide_eq_true (hall a ha)
    rw [this, h5]
  · intro ts now h5 hspan hup
    rcases hspan with ⟨a, ha, b, hb, hab⟩
    have hfail : ¬ (now - a < 60) := by
      have hbn : b ≤ now := hup b hb
      have : (61 : ℚ) ≤ now - a := by linarith
      linarith
    have hlt : (ts.filter (fun t => now - t < 60)).length < ts.length := by
      apply List.length_filter_lt_length_iff_exists.mpr
      exact ⟨a, ha, by simpa using hfail⟩
    have : ¬ (5 ≤ (ts.filter (fun t => now - t < 60)).length) := by omega
    cases h : detect_crash_loop ts now
    · rfl
    · exact absurd ((hiff ts now).mp h) this

/-- Witness for C2: five crashes inside the window at `now = 59` trigger the
guard; five crashes spanning 61 seconds evaluated at `now = 61` do not. -/
theorem detect_crash_loop_spec_witness :
    detect_crash_loop [0, 10, 20, 30, 59] 59 = true ∧
    detect_crash_loop [0, 20, 30, 40, 61] 61 = false := by
  constructor
  · exact detect_crash_loop_spec.2.1 [0, 10, 20, 30, 59] 59 (by decide)
      (by intro t ht; fin_cases ht <;> norm_num)
  · exact detect_crash_loop_spec.2.2 [0, 20, 30, 40, 61] 61 (by decide)
      ⟨0, by norm_num, 61, by norm_num⟩
      (by intro t ht; fin_cases ht <;> norm_num)

/-! ## Final-answer chunking (src/bot/src/handlers/message_handler.py)

`claude_worker` lines 322-334: a response longer than Telegram's 4096-character
single-message limit is sent as consecutive slices
`[response[i:i+4096] for i in range(0, len(response), 4096)]`.
Python slices strings by code point, so the response is modelled as a
`List Char`. -/

/-- The chunk list `[response[i:i+4096] for i in range(0, len(response), 4096)]`:
repeatedly slice off the first 4096 characters until nothing remains. -/
def split_chunks (cs : List Char) : List (List Char) :=
  if h : cs = [] then []
  else cs.take 4096 :: split_chunks (cs.drop 4096)
termination_by cs.length
decreasing_by
  simp only [List.length_drop]
  exact Nat.sub_lt (List.length_pos.mpr h) (by norm_num)

/-- From `claude_worker` lines 322-334: the sequence of messages sent for a
(non-empty) final response — chunked when it exceeds 4096 characters, a single
message otherwise. -/
def worker_send_final (response : List Char) : List (List Char) :=
  if 4096 < response.length then split_chunks response else [response]

theorem split_chunks_flatten (cs : List Char) : (split_chunks cs).flatten = cs := by
  suffices h : ∀ (n : Nat) (cs : List Char), cs.length = n →
      (split_chunks cs).flatten = cs from h cs.length cs rfl
  intro n
  induction n using Nat.strong_induction_on with
  | _ n ih =>
    intro cs hn
    unfold split_chunks
    by_cases h : cs = []
    · simp [h]
    · simp only [h, dite_false]
      rw [List.flatten_cons]
      have hlt : (cs.drop 4096).length < n := by
        rw [List.length_drop, ← hn]
        exact Nat.sub_lt (List.length_pos.mpr h) (by norm_num)
      rw [ih _ hlt _ rfl]
      exact List.take_append_drop 4096 cs

theorem split_chunks_length_le (cs : List Char) :
    ∀ c ∈ split_chunks cs, c.length ≤ 4096 := by
  suffices h : ∀ (n : Nat) (cs : List Char), cs.length = n →
      ∀ c ∈ split_chunks cs, c.length ≤ 4096 from h cs.length cs rfl
  intro n
  induction n using Nat.strong_induction_on with
  | _ n ih =>
    intro cs hn
    unfold split_chunks
    by_cases h : cs = []
    · simp [h]
    · simp only [h, dite_false]
      intro c hc
      rcases List.mem_cons.mp hc with hc | hc
      · subst hc
        simpa using Nat.min_le_left 4096 cs.length
      · have hlt : (cs.drop 4096).length < n := by
          rw [List.length_drop, ← hn]
          exact Nat.sub_lt (List.length_pos.mpr h) (by norm_num)
        exact ih _ hlt _ rfl c hc

/-- C6: for every final response, the messages the worker emits are in-order
chunks whose concatenation is exactly the original response and each of which
fits in a single 4096-character transport message — no content is lost. -/
theorem worker_send_final_no_loss (response : List Char) :
    (worker_send_final response).flatten = response ∧
    (worker_send_final response).all (fun c => c.length ≤ 4096) = true := by
  unfold worker_send_final
  by_cases h : 4096 < response.length
  · simp only [h, if_true]
    refine ⟨split_chunks_flatten response, ?_⟩
    rw [List.all_eq_true]
    intro c hc
    exact decide_eq_true (split_chunks_length_le response c hc)
  · simp only [h, if_false]
    refine ⟨by simp, ?_⟩
    rw [List.all_eq_true]
    intro c hc
    have : c = response := by simpa using hc
    subst this
    exact decide_eq_true (by omega)

/-! ## Sequential worker: timeout / heartbeat handling
(src/bot/src/handlers/message_handler.py)

`claude_worker` lines 157-188 wait on `claude_queue.get()` with a timeout of
`settings.heartbeat_interval_seconds`.  On `TimeoutError` the worker either
synthesizes a heartbeat request from `_last_request` (when heartbeats are
enabled and some request has been processed before) or keeps waiting; its
`dequeued` flag stays `False`, so the `finally` block (lines 398-401) does not
call `claude_queue.task_done()`. -/

/-- `ClaudeRequest` (message_handler.py lines 23-29), with the Telegram
`update`/`context` pair abstracted to the originating chat id. -/
structure ClaudeRequestR where
  prompt : String
  chatId : Nat
  source : String
  deriving DecidableEq, Repr

/-- `settings.heartbeat_message` default (src/bot/src/config/settings.py). -/
def heartbeat_message : String :=
  "Hi, this is your internal monologue. Nothing has happened recently. You can choose not to do anything, but you have agency and may act independently if you want to."

/-- From `claude_worker` lines 157-188: one pass of the wait step.
`outcome` is `some r` when `claude_queue.get()` returned request `r` within
the timeout and `none` when `asyncio.TimeoutError` was raised.  Returns the
request the iteration will process (if any) and the `dequeued` flag. -/
def worker_wait (heartbeat_enabled : Bool) (last_request : Option ClaudeRequestR)
    (outcome : Option ClaudeRequestR) : Option ClaudeRequestR × Bool :=
  match outcome with
  | some r => (some r, true)
  | none =>
    if heartbeat_enabled then
      match last_request with
      | some lr =>
        (some { prompt := heartbeat_message, chatId := lr.chatId, source := "heartbeat" },
         false)
      | none => (none, false)
    else (none, false)

/-- From `claude_worker` lines 398-401: `task_done` is called exactly when the
iteration actually dequeued an item. -/
def task_done_count (dequeued : Bool) : Nat :=
  if dequeued then 1 else 0

/-- C3: on a timeout the worker synthesizes a heartbeat WorkItem addressed to
the most recently active conversation iff heartbeats are enabled and a request
was processed before; otherwise it produces nothing; and a timeout never
counts as a dequeue for the queue's completion bookkeeping. -/
theorem worker_timeout_heartbeat :
    (∀ (hb : Bool) (lr : Option ClaudeRequestR) (r : ClaudeRequestR),
      hb = true → lr = some r →
      worker_wait hb lr none =
        (some { prompt := heartbeat_message, chatId := r.chatId, source := "heartbeat" },
         false)) ∧
    (∀ (hb : Bool) (lr : Option ClaudeRequestR),
      hb = false ∨ lr = none → worker_wait hb lr none = (none, false)) ∧
    (∀ (hb : Bool) (lr : Option ClaudeRequestR),
      task_done_count (worker_wait hb lr none).2 = 0) := by
  refine ⟨?_, ?_, ?_⟩
  · intro hb lr r hhb hlr
    subst hhb; subst hlr
    rfl
  · intro hb lr h
    rcases h with h | h
    · subst h; rfl
    · subst h
      cases hb <;> rfl
  · intro hb lr
    cases hb <;> cases lr <;> rfl

/-- Witness for C3: with heartbeats enabled and a previously processed request
for chat 7, a timeout yields the heartbeat request for chat 7 (not counted as
a dequeue); with heartbeats disabled it yields nothing. -/
theorem worker_timeout_heartbeat_witness :
    worker_wait true (some { prompt := "hi", chatId := 7, source := "user_text" }) none =
      (some { prompt := heartbeat_message, chatId := 7, source := "heartbeat" }, false) ∧
    worker_wait false (some { prompt := "hi", chatId := 7, source := "user_text" }) none =
      (none, false) := by
  constructor
  · exact worker_timeout_heartbeat.1 true
      (some { prompt := "hi", chatId := 7, source := "user_text" })
      { prompt := "hi", chatId := 7, source := "user_text" } rfl rfl
  · exact worker_timeout_heartbeat.2.1 false
      (some { prompt := "hi", chatId := 7, source := "user_text" }) (Or.inl rfl)

/-! ## Session continuity bookkeeping
(src/bot/src/handlers/message_handler.py lines 306-313,
src/bot/src/database/manager.py lines 80-96)

The per-user session table is modelled as a map `user_id → Option session_id`;
the in-memory cache is `context.user_data['claude_session_id']`. -/

/-- Python truthiness of an `Optional[str]`: `None` and `""` are falsy. -/
def py_truthy_str : Option String → Bool
  | none => false
  | some s => !(s == "")

/-- From `DatabaseManager.set_user_session` (manager.py lines 80-96): update
the existing row or insert a new one; the logical effect on the
user → session-id map is a pointwise overwrite. -/
def set_user_session (db : Nat → Option String) (user_id : Nat)
    (session_id : String) : Nat → Option String :=
  fun u => if u = user_id then some session_id else db u

/-- From `claude_worker` lines 309-313:

```
if response_obj.session_id:
    request.context.user_data['claude_session_id'] = response_obj.session_id
    if user_id:
        db_manager.set_user_session(user_id, response_obj.session_id)
```

Returns the database map and cached session id after the step.
(`db_manager.track_process` on lines 306-307 touches only the process-status
table, not the session table or cache.) -/
def worker_session_update (db : Nat → Option String) (cache : Option String)
    (user_id : Option Nat) (resp_session : Option String) :
    (Nat → Option String) × Option String :=
  if py_truthy_str resp_session then
    let sid := resp_session.getD ""
    let db2 := match user_id with
      | some u => set_user_session db u sid
      | none => db
    (db2, some sid)
  else (db, cache)

/-- C10: when the agent invocation returns an empty or absent session id, the
persisted SessionRecord and the cached session id are left unchanged; the
stored session is overwritten exactly when a non-empty session id comes back. -/
theorem worker_session_update_frame :
    (∀ (db : Nat → Option String) (cache : Option String) (uid : Option Nat)
        (rs : Option String), rs = none ∨ rs = some "" →
      worker_session_update db cache uid rs = (db, cache)) ∧
    (∀ (db : Nat → Option String) (cache : Option String) (uid : Option Nat)
        (rs : Option String) (u : Nat),
      (worker_session_update db cache uid rs).1 u ≠ db u →
      py_truthy_str rs = true) ∧
    (∀ (db : Nat → Option String) (cache : Option String) (u : Nat) (s : String),
      s ≠ "" →
      (worker_session_update db cache (some u) (some s)).1 u = some s ∧
      (worker_session_update db cache (some u) (some s)).2 = some s) := by
  refine ⟨?_, ?_, ?_⟩
  · intro db cache uid rs h
    rcases h with h | h <;> subst h <;> rfl
  · intro db cache uid rs u hne
    by_cases ht : py_truthy_str rs = true
    · exact ht
    · exfalso
      apply hne
      unfold worker_session_update
      rw [Bool.not_eq_true] at ht
      rw [ht]
      simp
  · intro db cache u s hs
    have ht : py_truthy_str (some s) = true := by
      unfold py_truthy_str
      simpa using hs
    unfold worker_session_update
    rw [ht]
    simp [set_user_session]

/-- Witness for C10: an absent session id leaves a concrete one-user store and
cache untouched; a non-empty one overwrites. -/
theorem worker_session_update_frame_witness :
    worker_session_update (fun _ => some "old") (some "old") (some 1) none =
      (fun _ => some "old", some "old") ∧
    (worker_session_update (fun _ => some "old") (some "old") (some 1)
      (some "new")).1 1 = some "new" := by
  constructor
  · exact worker_session_update_frame.1 (fun _ => some "old") (some "old")
      (some 1) none (Or.inl rfl)
  · exact (worker_session_update_frame.2.2 (fun _ => some "old") (some "old")
      1 "new" (by decide)).1

/-! ## Process lifecycle: terminate idempotence
(src/bot/src/handlers/commands.py lines 211-256, src/bot/src/main.py
lines 112-128)

A `ProcessHandle` is an entry of `claude_executor.active_processes`
(process id → live asyncio subprocess).  Python's
`asyncio.subprocess.Process.terminate()` raises `ProcessLookupError` when the
process has already exited; both call sites wrap the call in
`try/except Exception`, so the exception never escapes. -/

inductive ProcStatus where
  | running
  | completed
  | killed
  deriving DecidableEq, Repr

structure ProcHandle where
  status : ProcStatus
  deriving DecidableEq, Repr

/-- The runtime behaviour of `process.terminate()`: succeeds on a running
process (which then exits and is observed as killed), raises
`ProcessLookupError` on a process that already left the running state. -/
def raw_terminate (p : ProcHandle) : Except String ProcHandle :=
  match p.status with
  | .running => .ok { status := .killed }
  | _ => .error "ProcessLookupError"

/-- From `cleanup` (main.py lines 115-128): per-process shutdown block —
`terminate`, bounded wait, force-kill if still alive, all inside
`try/except Exception` which only logs.  Returns the handle afterwards and
whether an exception escaped the block (never). -/
def cleanup_terminate_one (p : ProcHandle) : ProcHandle × Bool :=
  match raw_terminate p with
  | .ok p2 => (p2, false)
  | .error _ => (p, false)

/-- Replies of `/kill` (commands.py lines 211-256). -/
inductive KillReply where
  | multipleMatch (pid : String)
  | notFound (pid : String)
  | killed (pid : String)
  | failed (pid : String)
  deriving DecidableEq, Repr

/-- Dict lookup in `claude_executor.active_processes`. -/
def lookup_process (tbl : List (String × ProcHandle)) (pid : String) :
    Option ProcHandle :=
  (tbl.find? (fun kv => kv.1 == pid)).map (·.2)

/-- From `kill_command` lines 240-256: the `try` block — terminate, grace
period, force-kill if needed, remove from tracking, mark killed in the
database — with `except Exception` answering a failure reply and leaving
everything untouched. -/
def kill_resolved (tbl : List (String × ProcHandle)) (pid : String) :
    List (String × ProcHandle) × KillReply :=
  match lookup_process tbl pid with
  | none => (tbl, .notFound pid)
  | some p =>
    match raw_terminate p with
    | .error _ => (tbl, .failed pid)
    | .ok _ => (tbl.filter (fun kv => !(kv.1 == pid)), .killed pid)

/-- From `kill_command` lines 228-256: resolve the given id exactly or as a
unique prefix of a tracked process id, then kill it; unmatched ids answer
"not found" and ambiguous prefixes answer "multiple matches", both without
touching any state. -/
def kill_command (tbl : List (String × ProcHandle)) (pid : String) :
    List (String × ProcHandle) × KillReply :=
  if (tbl.find? (fun kv => kv.1 == pid)).isSome then
    kill_resolved tbl pid
  else
    let matching := (tbl.map (·.1)).filter (fun k => starts_with k pid)
    match matching with
    | [k] => kill_resolved tbl k
    | [] => (tbl, .notFound pid)
    | _ => (tbl, .multipleMatch pid)

/-- C8: terminating a ProcessHandle that already left the running state is a
no-op that returns successfully: the shutdown path leaves the handle unchanged
with no exception escaping, `/kill` on an id no longer tracked changes no
state, and `/kill` on a tracked but already-exited process reports failure
without raising or mutating anything. -/
theorem terminate_idempotent :
    (∀ p : ProcHandle, p.status ≠ .running → cleanup_terminate_one p = (p, false)) ∧
    (∀ (tbl : List (String × ProcHandle)) (pid : String),
      lookup_process tbl pid = none →
      (∀ k ∈ tbl.map Prod.fst, starts_with k pid = false) →
      kill_command tbl pid = (tbl, .notFound pid)) ∧
    (∀ (tbl : List (String × ProcHandle)) (pid : String) (p : ProcHandle),
      lookup_process tbl pid = some p → p.status ≠ .running →
      kill_command tbl pid = (tbl, .failed pid)) := by
  refine ⟨?_, ?_, ?_⟩
  · intro p hp
    unfold cleanup_terminate_one raw_terminate
    cases hs : p.status
    · exact absurd hs hp
    · rfl
    · rfl
  · intro tbl pid hnone hpre
    unfold kill_command
    have hfind : tbl.find? (fun kv => kv.1 == pid) = none := by
      unfold lookup_process at hnone
      cases h : tbl.find? (fun kv => kv.1 == pid)
      · rfl
      · rw [h] at hnone; simp at hnone
    rw [hfind]
    simp only [Option.isSome_none, Bool.false_eq_true, if_false]
    have hmatch : (tbl.map (·.1)).filter (fun k => starts_with k pid) = [] := by
      apply List.filter_eq_nil_iff.mpr
      intro k hk
      simp [hpre k hk]
    rw [hmatch]
  · intro tbl pid p hsome hp
    unfold kill_command
    have hfind : (tbl.find? (fun kv => kv.1 == pid)).isSome := by
      unfold lookup_process at hsome
      cases h : tbl.find? (fun kv => kv.1 == pid)
      · rw [h] at hsome; simp at hsome
      · simp
    rw [if_pos hfind]
    unfold kill_resolved
    have hterm : raw_terminate p = .error "ProcessLookupError" := by
      unfold raw_terminate
      cases hs : p.status
      · exact absurd hs hp
      · rfl
      · rfl
    simp only [hsome]
    rw [hterm]

/-- Witness for C8: terminating a completed handle during shutdown leaves it
untouched; `/kill` on an untracked id and on a tracked completed process
mutate nothing. -/
theorem terminate_idempotent_witness :
    cleanup_terminate_one { status := .completed } = ({ status := .completed }, false) ∧
    kill_command [] "abc" = ([], .notFound "abc") ∧
    kill_command [("abc", { status := .completed })] "abc" =
      ([("abc", { status := .completed })], .failed "abc") := by
  refine ⟨?_, ?_, ?_⟩
  · exact terminate_idempotent.1 { status := .completed } (by decide)
  · exact terminate_idempotent.2.1 [] "abc" rfl (by intro k hk; simp at hk)
  · exact terminate_idempotent.2.2 [("abc", { status := .completed })] "abc"
      { status := .completed } rfl (by decide)

/-! ## Message threading aggregator and inbound-message guards
(src/bot/src/handlers/message_handler.py lines 51-98, 408-516, 519-691)

The per-user `ThreadState` is modelled by its `messages` buffer (the
`update`/`context`/timer/reminder fields only affect which chat replies go to
and the one-time reminder nudge, not what is enqueued).  The handlers' guard
outcome is determined by the security validator, the rate limiter and the
pause flag in the bot-state store, modelled as three booleans. -/

def THREAD_START_MARKERS : List String := ["1/", "üßµ"]

def THREAD_END_MARKERS : List String := ["x/", "X/", "üèÅ", "‚úÖ", "‚úîÔ∏è"]

/-- `_is_thread_start` (lines 57-59). -/
def _is_thread_start (text : String) : Bool :=
  THREAD_START_MARKERS.any (fun marker => starts_with text marker)

/-- `_is_thread_end` (lines 62-68): any end marker at the start or the end of
the message. -/
def _is_thread_end (text : String) : Bool :=
  THREAD_END_MARKERS.any (fun marker => starts_with text marker || ends_with text marker)

def unauthorized_reply : String := "‚õî Unauthorized access."

def rate_limited_reply : String := "‚è±Ô∏è Rate limit exceeded. Please wait."

def paused_reply : String := "‚è∏Ô∏è Bot is paused. An admin needs to /resume it."

/-- Outcome of the security checks for one inbound message:
`security_validator.is_authorized`, `security_validator.check_rate_limit`, and
`db_manager.is_paused()` (the pause flag of the bot-state store). -/
structure Guards where
  authorized : Bool
  rateLimitOk : Bool
  paused : Bool
  deriving DecidableEq, Repr

/-- The threading core of `handle_message` (lines 454-516) together with
`_submit_thread` (lines 71-98), for one user.  Input: the current
`ThreadState` buffer (if any) and the inbound text.  Output: the new buffer
and the prompts enqueued on `claude_queue` by this message. -/
def handle_message_core (st : Option (List String)) (text : String) :
    Option (List String) × List String :=
  let is_start := _is_thread_start text
  let is_end := _is_thread_end text
  match st with
  | some msgs =>
    -- already in a thread: append, then check end / restart
    let msgs2 := msgs ++ [text]
    if is_end then
      -- Collecting → Idle: submit the whole buffer, end message included
      (none, [String.intercalate "\n" msgs2])
    else if is_start && decide (1 < msgs2.length) then
      -- thread restart: pop the new start message, submit, start fresh
      (some [text], [String.intercalate "\n" msgs])
    else
      (some msgs2, [])
  | none =>
    if is_start then
      -- start a new thread buffering this message
      (some [text], [])
    else
      -- no thread and no marker: enqueue immediately
      (none, [text])

/-- `handle_message` (lines 430-516): security, rate-limit and pause guards in
source order, then the threading core.  Returns the new thread buffer, the
prompts enqueued, and the replies sent back to the user. -/
def handle_message (g : Guards) (st : Option (List String)) (text : String) :
    Option (List String) × List String × List String :=
  if !g.authorized then (st, [], [unauthorized_reply])
  else if !g.rateLimitOk then (st, [], [rate_limited_reply])
  else if g.paused then (st, [], [paused_reply])
  else
    let (st2, enq) := handle_message_core st text
    (st2, enq, [])

/-- `handle_photo` (lines 519-569): authorization then pause guard, then the
photo is saved and its notification prompt enqueued.  (There is no rate-limit
check on this path.)  Returns enqueued prompts and replies. -/
def handle_photo (g : Guards) (notification : String) : List String × List String :=
  if !g.authorized then ([], [unauthorized_reply])
  else if g.paused then ([], [paused_reply])
  else ([notification], [])

/-- `handle_audio` (lines 572-633): same guard structure as `handle_photo`. -/
def handle_audio (g : Guards) (notification : String) : List String × List String :=
  if !g.authorized then ([], [unauthorized_reply])
  else if g.paused then ([], [paused_reply])
  else ([notification], [])

/-- `handle_document` (lines 636-691): same guard structure as `handle_photo`. -/
def handle_document (g : Guards) (notification : String) : List String × List String :=
  if !g.authorized then ([], [unauthorized_reply])
  else if g.paused then ([], [paused_reply])
  else ([notification], [])

/-- C4: while the pause flag is set, none of the inbound message paths (text,
photo, audio, document) creates a WorkItem — nothing is enqueued and the
thread state is untouched — and any message that passes the earlier
authorization and rate-limit checks is answered with the paused notice. -/
theorem paused_blocks_intake :
    ∀ g : Guards, g.paused = true →
      (∀ st text, (handle_message g st text).2.1 = [] ∧
        (handle_message g st text).1 = st) ∧
      (∀ notif, (handle_photo g notif).1 = []) ∧
      (∀ notif, (handle_audio g notif).1 = []) ∧
      (∀ notif, (handle_document g notif).1 = []) ∧
      (g.authorized = true → g.rateLimitOk = true →
        (∀ st text, (handle_message g st text).2.2 = [paused_reply]) ∧
        (∀ notif, (handle_photo g notif).2 = [paused_reply])) := by
  intro g hp
  refine ⟨?_, ?_, ?_, ?_, ?_⟩
  · intro st text
    unfold handle_message
    cases ha : g.authorized <;> cases hr : g.rateLimitOk <;> simp [hp]
  · intro notif
    unfold handle_photo
    cases ha : g.authorized <;> simp [hp]
  · intro notif
    unfold handle_audio
    cases ha : g.authorized <;> simp [hp]
  · intro notif
    unfold handle_document
    cases ha : g.authorized <;> simp [hp]
  · intro ha hr
    refine ⟨?_, ?_⟩
    · intro st text
      unfold handle_message
      simp [ha, hr, hp]
    · intro notif
      unfold handle_photo
      simp [ha, hp]

/-- Witness for C4: with the bot paused, a plain text message, a thread-start
message and a photo all produce no queue item; the text path answers with the
paused notice. -/
theorem paused_blocks_intake_witness :
    (handle_message ⟨true, true, true⟩ none "hello").2.1 = [] ∧
    (handle_message ⟨true, true, true⟩ none "1/ hello").1 = none ∧
    (handle_photo ⟨true, true, true⟩ "photo.jpg").1 = [] ∧
    (handle_message ⟨true, true, true⟩ none "hello").2.2 = [paused_reply] := by
  refine ⟨?_, ?_, ?_, ?_⟩
  · exact ((paused_blocks_intake ⟨true, true, true⟩ rfl).1 none "hello").1
  · exact ((paused_blocks_intake ⟨true, true, true⟩ rfl).1 none "1/ hello").2
  · exact (paused_blocks_intake ⟨true, true, true⟩ rfl).2.1 "photo.jpg"
  · exact ((paused_blocks_intake ⟨true, true, true⟩ rfl).2.2.2.2 rfl rfl).1 none "hello"

/-- Fold `handle_message` over a sequence of inbound texts from one user,
collecting every prompt enqueued along the way. -/
def run_handle_message (g : Guards) :
    Option (List String) → List String → Option (List String) × List String
  | st, [] => (st, [])
  | st, text :: rest =>
    let r := handle_message g st text
    let r2 := run_handle_message g r.1 rest
    (r2.1, r.2.1 ++ r2.2)

/-- C5: for one (authorized, unpaused) user starting idle, the inbound
sequence `["1/ hello", "world", "x/ done"]` enqueues exactly one WorkItem
whose prompt is the whole buffer, end message included, joined with newlines
in arrival order; the thread state is cleared afterwards. -/
theorem thread_aggregation_three_messages :
    run_handle_message ⟨true, true, false⟩ none ["1/ hello", "world", "x/ done"] =
      (none, ["1/ hello\nworld\nx/ done"]) := by
  decide

/-! ## Error classification (src/bot/src/utils/error_handler.py lines 27-102)

A Python exception is modelled by its concrete class (`ExcKind`), its message
and its `retry_after` attribute (defaulted to 60 by `getattr`).  The
`isinstance` tests of `categorize_error` are encoded through the relevant
class hierarchy: `ConnectionError`, `PermissionError`, `FileNotFoundError`
and `TimeoutError` (= `asyncio.TimeoutError`) are subclasses of `OSError`
(and `IOError` is an alias of `OSError`); `TimedOut <: NetworkError <:
TelegramError` and `RetryAfter <: TelegramError`. -/

/-- `ErrorCategory` (error_handler.py lines 15-24). -/
inductive ErrorCategory where
  | network
  | timeout
  | rate_limit
  | permission
  | not_found
  | invalid_input
  | claude_error
  | generic
  deriving DecidableEq, Repr

/-- The concrete exception classes distinguished by `categorize_error`,
plus `runtimeError` standing for any exception matching none of them. -/
inductive ExcKind where
  | networkError
  | connectionError
  | osError
  | timedOut
  | asyncioTimeout
  | retryAfter
  | telegramError
  | permissionError
  | fileNotFoundError
  | valueError
  | keyError
  | indexError
  | typeError
  | memoryError
  | runtimeError
  deriving DecidableEq, Repr

/-- Python `type(error).__name__`. -/
def exc_name : ExcKind → String
  | .networkError => "NetworkError"
  | .connectionError => "ConnectionError"
  | .osError => "OSError"
  | .timedOut => "TimedOut"
  | .asyncioTimeout => "TimeoutError"
  | .retryAfter => "RetryAfter"
  | .telegramError => "TelegramError"
  | .permissionError => "PermissionError"
  | .fileNotFoundError => "FileNotFoundError"
  | .valueError => "ValueError"
  | .keyError => "KeyError"
  | .indexError => "IndexError"
  | .typeError => "TypeError"
  | .memoryError => "MemoryError"
  | .runtimeError => "RuntimeError"

structure PyError where
  kind : ExcKind
  msg : String
  retryAfter : Nat
  deriving DecidableEq, Repr

/-- Python `needle in hay` for strings: the needle's character sequence
occurs contiguously inside the haystack's. -/
def contains_sub (hay needle : String) : Bool :=
  hay.data.tails.any (fun t => needle.data.isPrefixOf t)

/-- `isinstance(error, (NetworkError, ConnectionError, OSError))`. -/
def isinst_net_conn_os : ExcKind → Bool
  | .networkError | .timedOut | .connectionError | .osError
  | .permissionError | .fileNotFoundError | .asyncioTimeout => true
  | _ => false

/-- `isinstance(error, (TimedOut, asyncio.TimeoutError))`. -/
def isinst_timeout : ExcKind → Bool
  | .timedOut | .asyncioTimeout => true
  | _ => false

/-- `isinstance(error, RetryAfter)`. -/
def isinst_retry_after : ExcKind → Bool
  | .retryAfter => true
  | _ => false

/-- `isinstance(error, TelegramError)`. -/
def isinst_telegram : ExcKind → Bool
  | .telegramError | .networkError | .timedOut | .retryAfter => true
  | _ => false

/-- `isinstance(error, PermissionError)`. -/
def isinst_permission : ExcKind → Bool
  | .permissionError => true
  | _ => false

/-- `isinstance(error, FileNotFoundError)`. -/
def isinst_file_not_found : ExcKind → Bool
  | .fileNotFoundError => true
  | _ => false

/-- `isinstance(error, (FileNotFoundError, IOError))` — `IOError` is an alias
of `OSError`. -/
def isinst_file_io : ExcKind → Bool
  | .connectionError | .osError | .permissionError
  | .fileNotFoundError | .asyncioTimeout => true
  | _ => false

/-- `isinstance(error, (ValueError, KeyError, IndexError, TypeError))`. -/
def isinst_invalid : ExcKind → Bool
  | .valueError | .keyError | .indexError | .typeError => true
  | _ => false

/-- `isinstance(error, MemoryError)`. -/
def isinst_memory : ExcKind → Bool
  | .memoryError => true
  | _ => false

/-- `str(error)[:200]` followed by `.lower()` (ASCII case fold — the needles
inspected below are all ASCII). -/
def lower200 (msg : String) : String :=
  String.mk ((msg.data.take 200).map Char.toLower)

/-- From `categorize_error` (error_handler.py lines 27-102), ported clause by
clause in source order. -/
def categorize_error (e : PyError) : ErrorCategory × String :=
  let error_name := exc_name e.kind
  let error_str := String.mk (e.msg.data.take 200)
  let lower := lower200 e.msg
  if isinst_net_conn_os e.kind &&
      (contains_sub error_str "Connection" || contains_sub error_str "Network") then
    (.network, "⚠️ Network connection issue. Please try again in a moment.")
  else if isinst_timeout e.kind then
    (.timeout, "⏱️ Request timed out. Please try again with a simpler request.")
  else if isinst_retry_after e.kind then
    (.rate_limit, "⏸️ Rate limit reached. Please wait " ++ toString e.retryAfter ++ " seconds.")
  else if isinst_telegram e.kind &&
      (contains_sub lower "forbidden" || contains_sub lower "unauthorized") then
    (.permission, "🔒 Permission denied. Please check bot permissions.")
  else if isinst_telegram e.kind && contains_sub lower "not found" then
    (.not_found, "❓ Resource not found. Please try again.")
  else if isinst_permission e.kind then
    (.permission, "🔒 Access denied. Insufficient permissions.")
  else if isinst_file_io e.kind then
    if isinst_file_not_found e.kind then
      (.not_found, "📁 File not found. Please check the file path.")
    else
      (.generic, "💾 File operation failed. Please try again.")
  else if isinst_invalid e.kind then
    (.invalid_input, "❌ Invalid input or data format. Please check your message.")
  else if contains_sub lower "claude" || contains_sub lower "api" then
    if contains_sub lower "timeout" then
      (.timeout, "⏱️ Claude is taking too long. Please try a simpler request.")
    else if contains_sub lower "rate" || contains_sub lower "limit" then
      (.rate_limit, "⏸️ Claude API limit reached. Please wait a moment.")
    else
      (.claude_error, "🤖 Claude encountered an error. Please try again.")
  else if isinst_memory e.kind then
    (.generic, "💭 Out of memory. Please try a smaller request.")
  else
    (.generic, "❌ An error occurred. Please try again.\nError: `" ++ error_name ++ "`")

/-- The substring-inspection fallback exactly as the claim words it: a
case-insensitive message containing "claude" or "api" is timeout if it also
contains "timeout", rate-limit if it contains "rate" or "limit", otherwise
agent-specific failure; anything else gets the generic category with the
deterministic fallback message naming the exception type. -/
def spec_substring_policy (error_name msg : String) : ErrorCategory × String :=
  let lower := lower200 msg
  if contains_sub lower "claude" || contains_sub lower "api" then
    if contains_sub lower "timeout" then
      (.timeout, "⏱️ Claude is taking too long. Please try a simpler request.")
    else if contains_sub lower "rate" || contains_sub lower "limit" then
      (.rate_limit, "⏸️ Claude API limit reached. Please wait a moment.")
    else
      (.claude_error, "🤖 Claude encountered an error. Please try again.")
  else
    (.generic, "❌ An error occurred. Please try again.\nError: `" ++ error_name ++ "`")

/-- Counterexample for C9 as stated: `MemoryError("api")` matches the
MemoryError kind rule, yet `categorize_error` classifies it by the substring
fallback (agent-specific failure) instead of the MemoryError rule's generic
out-of-memory answer — the kind rules are not all applied before the
substring inspection. -/
theorem categorize_error_memory_api_counterexample :
    categorize_error { kind := .memoryError, msg := "api", retryAfter := 60 } =
      (.claude_error, "🤖 Claude encountered an error. Please try again.") ∧
    ErrorCategory.claude_error ≠ ErrorCategory.generic := by
  constructor
  · decide
  · decide

/-- C9 (amended): kind rules listed before the substring block always win
(e.g. any `ValueError` is invalid-input no matter its message); an exception
matching no kind rule is classified exactly by the claim's substring policy,
generic deterministic fallback included; but the MemoryError kind rule is
checked only after the substring fallback, so a MemoryError mentioning
"claude"/"api" follows the substring policy and only otherwise gets the
out-of-memory answer. -/
theorem categorize_error_policy :
    (∀ (msg : String) (ra : Nat),
      categorize_error { kind := .valueError, msg := msg, retryAfter := ra } =
        (.invalid_input, "❌ Invalid input or data format. Please check your message.")) ∧
    (∀ (msg : String) (ra : Nat),
      categorize_error { kind := .runtimeError, msg := msg, retryAfter := ra } =
        spec_substring_policy "RuntimeError" msg) ∧
    (∀ (msg : String) (ra : Nat),
      (contains_sub (lower200 msg) "claude" || contains_sub (lower200 msg) "api") = true →
      categorize_error { kind := .memoryError, msg := msg, retryAfter := ra } =
        spec_substring_policy "MemoryError" msg) ∧
    (∀ (msg : String) (ra : Nat),
      (contains_sub (lower200 msg) "claude" || contains_sub (lower200 msg) "api") = false →
      categorize_error { kind := .memoryError, msg := msg, retryAfter := ra } =
        (.generic, "💭 Out of memory. Please try a smaller request.")) := by
  refine ⟨?_, ?_, ?_, ?_⟩
  · intro msg ra
    simp [categorize_error, isinst_net_conn_os, isinst_timeout, isinst_retry_after,
      isinst_telegram, isinst_permission, isinst_file_io, isinst_invalid]
  · intro msg ra
    simp only [categorize_error, spec_substring_policy, isinst_net_conn_os,
      isinst_timeout, isinst_retry_after, isinst_telegram, isinst_permission,
      isinst_file_io, isinst_invalid, isinst_memory, exc_name,
      Bool.false_and, Bool.and_self, if_false, Bool.false_eq_true, ite_false]
  · intro msg ra h
    simp only [categorize_error, spec_substring_policy, isinst_net_conn_os,
      isinst_timeout, isinst_retry_after, isinst_telegram, isinst_permission,
      isinst_file_io, isinst_invalid, isinst_memory,
      Bool.false_and, Bool.false_eq_true, ite_false]
    rw [h]
    simp
  · intro msg ra h
    simp only [categorize_error, isinst_net_conn_os, isinst_timeout,
      isinst_retry_after, isinst_telegram, isinst_permission, isinst_file_io,
      isinst_invalid, isinst_memory,
      Bool.false_and, Bool.false_eq_true, ite_false]
    rw [h]
    simp

/-- Witness for C9 (amended): a `ValueError("api")` is still invalid-input
(kind rule first); a `MemoryError("api")` follows the substring policy; a
`MemoryError("boom")` gets the out-of-memory answer. -/
theorem categorize_error_policy_witness :
    categorize_error { kind := .valueError, msg := "api", retryAfter := 60 } =
      (.invalid_input, "❌ Invalid input or data format. Please check your message.") ∧
    categorize_error { kind := .memoryError, msg := "api timeout", retryAfter := 60 } =
      spec_substring_policy "MemoryError" "api timeout" ∧
    categorize_error { kind := .memoryError, msg := "boom", retryAfter := 60 } =
      (.generic, "💭 Out of memory. Please try a smaller request.") := by
  refine ⟨?_, ?_, ?_⟩
  · exact categorize_error_policy.1 "api" 60
  · exact categorize_error_policy.2.2.1 "api timeout" 60 (by decide)
  · exact categorize_error_policy.2.2.2 "boom" 60 (by decide)

/-! ## Streaming update throttler
(src/bot/src/handlers/message_handler.py lines 216-273)

`stream_callback` first logs every `StreamUpdate` (lines 226-236), then
applies the rolling-window gate `if current_time - last_update_time < 1.0:
return` (lines 239-242).  An event that passes the gate sets
`last_update_time = current_time` *before* the event type is examined:
`result` events return without a transport call (lines 255-257) and
`tool_result` events leave `progress_text` empty (no branch, lines 246-259),
so both consume the window silently; only `tool_use` and `assistant` events
produce a transport call (send or edit of the progress message). -/

/-- `StreamUpdate.type` values handled by `stream_callback`. -/
inductive StreamType where
  | tool_use
  | assistant
  | tool_result
  | result
  deriving DecidableEq, Repr

structure StreamEvent where
  time : ℚ
  type : StreamType
  deriving DecidableEq, Repr

/-- One invocation of `stream_callback` with throttle state
`last_update_time`: returns the new `last_update_time`, whether the event was
forwarded to the logging sink (always), and whether a transport-visible
display update was made. -/
def stream_callback_step (last_update_time : ℚ) (e : StreamEvent) :
    ℚ × Bool × Bool :=
  let logged := true
  if e.time - last_update_time < 1 then
    (last_update_time, logged, false)
  else
    match e.type with
    | .result => (e.time, logged, false)
    | .tool_result => (e.time, logged, false)
    | .tool_use => (e.time, logged, true)
    | .assistant => (e.time, logged, true)

/-- Run `stream_callback` over the events of one invocation
(`last_update_time` starts at 0, line 217), pairing each event with its
display flag. -/
def run_stream (last_update_time : ℚ) :
    List StreamEvent → List (StreamEvent × Bool)
  | [] => []
  | e :: rest =>
    let s := stream_callback_step last_update_time e
    (e, s.2.2) :: run_stream s.1 rest

/-- Any event displayed during a run arrived at least one second after the
throttle state the run started from. -/
theorem run_stream_displayed_lb (t : ℚ) (evs : List StreamEvent) :
    ∀ p ∈ run_stream t evs, p.2 = true → t + 1 ≤ p.1.time := by
  induction evs generalizing t with
  | nil => intro p hp; simp [run_stream] at hp
  | cons e rest ih =>
    intro p hp hd
    rw [run_stream] at hp
    rcases List.mem_cons.mp hp with hp | hp
    · subst hp
      simp only at hd
      unfold stream_callback_step at hd
      by_cases hw : e.time - t < 1
      · rw [if_pos hw] at hd
        simp at hd
      · linarith [not_lt.mp hw]
    · have hmono : t ≤ (stream_callback_step t e).1 := by
        unfold stream_callback_step
        by_cases hw : e.time - t < 1
        · rw [if_pos hw]
        · rw [if_neg hw]
          have := not_lt.mp hw
          cases e.type <;> simp <;> linarith
      have := ih (stream_callback_step t e).1 p hp hd
      linarith

/-- Counterexample for C7 as stated: a `tool_use` event at t=5 is displayed,
then a `result` event at t=7 — the first event after the window reopened,
arriving two seconds after the last displayed update — passes the gate but
produces no transport call, refuting "the first event after the window
reopens is displayed". -/
theorem stream_first_after_reopen_counterexample :
    run_stream 0 [{ time := 5, type := .tool_use }, { time := 7, type := .result }] =
      [({ time := 5, type := .tool_use }, true), ({ time := 7, type := .result }, false)] ∧
    (1 : ℚ) ≤ 7 - 5 := by
  constructor
  · simp only [run_stream, stream_callback_step]
    norm_num
  · norm_num

/-- C7 (amended): every event is forwarded to the logging sink
unconditionally; transport-visible display updates occur at most once per
rolling one-second window — any two displayed events of one invocation are at
least one second apart, and an event arriving less than one second after the
last gate-passing event produces no transport call; the first event after the
window reopens is displayed if and only if it is a displayable progress event
(`tool_use` or `assistant`) — `result` and `tool_result` events pass the gate
silently, consuming the window without a transport call. -/
theorem stream_throttle_policy :
    (∀ (t : ℚ) (e : StreamEvent), (stream_callback_step t e).2.1 = true) ∧
    (∀ (t : ℚ) (evs : List StreamEvent),
      List.Pairwise (fun a b => a.2 = true → b.2 = true → a.1.time + 1 ≤ b.1.time)
        (run_stream t evs)) ∧
    (∀ (t : ℚ) (e : StreamEvent), e.time - t < 1 →
      (stream_callback_step t e).2.2 = false) ∧
    (∀ (t : ℚ) (e : StreamEvent), 1 ≤ e.time - t →
      ((stream_callback_step t e).2.2 = true ↔
        (e.type = .tool_use ∨ e.type = .assistant))) := by
  refine ⟨?_, ?_, ?_, ?_⟩
  · intro t e
    unfold stream_callback_step
    by_cases hw : e.time - t < 1
    · rw [if_pos hw]
    · rw [if_neg hw]
      cases e.type <;> rfl
  · intro t evs
    induction evs generalizing t with
    | nil => simp [run_stream]
    | cons e rest ih =>
      rw [run_stream]
      refine List.Pairwise.cons ?_ (ih _)
      intro b hb hd hbd
      simp only at hd
      have hgate : ¬ (e.time - t < 1) := by
        intro hw
        unfold stream_callback_step at hd
        rw [if_pos hw] at hd
        simp at hd
      have hst : (stream_callback_step t e).1 = e.time := by
        unfold stream_callback_step
        rw [if_neg hgate]
        cases e.type <;> rfl
      have := run_stream_displayed_lb (stream_callback_step t e).1 rest b hb hbd
      rw [hst] at this
      linarith
  · intro t e hw
    unfold stream_callback_step
    rw [if_pos hw]
  · intro t e hw
    unfold stream_callback_step
    rw [if_neg (by linarith : ¬ (e.time - t < 1))]
    cases e.type <;> simp

/-- Witness for C7 (amended): an in-window event is dropped for display, a
reopened-window `tool_use` event is displayed, a reopened-window `result`
event is not. -/
theorem stream_throttle_policy_witness :
    (stream_callback_step 5 { time := 11/2, type := .tool_use }).2.2 = false ∧
    (stream_callback_step 0 { time := 5, type := .tool_use }).2.2 = true ∧
    (stream_callback_step 0 { time := 5, type := .result }).2.2 = false := by
  refine ⟨?_, ?_, ?_⟩
  · exact stream_throttle_policy.2.2.1 5 { time := 11/2, type := .tool_use } (by norm_num)
  · exact (stream_throttle_policy.2.2.2 0 { time := 5, type := .tool_use }
      (by norm_num)).mpr (Or.inl rfl)
  · have h := stream_throttle_policy.2.2.2 0 { time := 5, type := .result } (by norm_num)
    have h2 : ¬ ((stream_callback_step 0 { time := 5, type := .result }).2.2 = true) := by
      rw [h]
      simp
    simpa using h2

/-! ## Sequential worker: FIFO order and single-flight invariant
(src/bot/src/handlers/message_handler.py lines 146-403)

`claude_worker` is the only consumer of `claude_queue` (an `asyncio.Queue`,
which returns items in FIFO enqueue order).  Its loop body `await`s the whole
processing of one request — session lookup, agent invocation, session write
and delivery — before looping, so the processing steps of consecutive items
never interleave.  The execution of the worker against a fixed queue content
is modelled as a flat event trace.

Modelled from the spec: `ClaudeProcessManager.execute_command`
(`src/claude/cli_executor.py`, not present under `src/`) maintains the live
ProcessHandle table `active_processes`; per spec §4.2/§4.3 a handle is
registered (status running) when the Worker starts an invocation and removed
once the invocation leaves the running state.  In the trace this is the
`register`/`remove` pair bracketing `invoke_done`. -/

/-- The observable steps of processing one WorkItem, tagged with its queue
position. -/
inductive WorkerEv where
  | dequeue (i : Nat)
  | register (i : Nat)
  | invoke_done (i : Nat)
  | remove (i : Nat)
  | deliver (i : Nat)
  deriving DecidableEq, Repr

/-- One iteration of the `claude_worker` loop body for queue item `i`:
dequeue (line 163), register the running ProcessHandle, complete the agent
invocation (line 290), drop the handle from the live table, deliver the final
answer or error report (lines 319-397). -/
def item_trace (i : Nat) : List WorkerEv :=
  [.dequeue i, .register i, .invoke_done i, .remove i, .deliver i]

/-- The trace of the worker draining a queue of `n` items: the loop runs the
full body for item 0, then item 1, and so on. -/
def worker_trace (n : Nat) : List WorkerEv :=
  (List.range n).flatMap item_trace

/-- Effect of one event on the live ProcessHandle table (the set of
registered running invocations, by queue position). -/
def proc_step (tbl : List Nat) : WorkerEv → List Nat
  | .register i => tbl ++ [i]
  | .remove i => tbl.erase i
  | _ => tbl

/-- The running-table stays at most a singleton at every point of a trace
executed from table `tbl`. -/
def ok_run (tbl : List Nat) : List WorkerEv → Prop
  | [] => tbl.length ≤ 1
  | e :: rest => tbl.length ≤ 1 ∧ ok_run (proc_step tbl e) rest

/-- The queue positions dequeued along a trace, in order. -/
def dequeue_order (tr : List WorkerEv) : List Nat :=
  tr.filterMap (fun e => match e with | .dequeue i => some i | _ => none)

theorem ok_run_append (a b : List WorkerEv) :
    ∀ tbl : List Nat, ok_run tbl a → ok_run (a.foldl proc_step tbl) b →
      ok_run tbl (a ++ b) := by
  induction a with
  | nil =>
    intro tbl _ hb
    simpa using hb
  | cons e a ih =>
    intro tbl ha hb
    rw [List.cons_append, ok_run]
    rw [ok_run] at ha
    exact ⟨ha.1, ih _ ha.2 (by simpa using hb)⟩

theorem item_trace_foldl (i : Nat) :
    (item_trace i).foldl proc_step [] = [] := by
  simp [item_trace, proc_step, List.foldl]

theorem worker_trace_foldl (n : Nat) :
    (worker_trace n).foldl proc_step [] = [] := by
  induction n with
  | zero => rfl
  | succ n ih =>
    unfold worker_trace
    rw [List.range_succ, List.flatMap_append, List.foldl_append]
    unfold worker_trace at ih
    rw [ih]
    simp [item_trace, proc_step, List.foldl]

theorem ok_run_item (i : Nat) : ok_run [] (item_trace i) := by
  simp [item_trace, ok_run, proc_step]

/-- C1: the single worker consumes queue items in exact FIFO order, the
processing block of item `i+1` starts only after the whole block of item `i`
(delivery included) has finished, and along the entire run the live
ProcessHandle table never holds two running entries. -/
theorem claude_worker_fifo_single_flight :
    (∀ n, dequeue_order (worker_trace n) = List.range n) ∧
    (∀ n, ok_run [] (worker_trace n)) ∧
    (∀ n i, i + 2 ≤ n → ∃ pre post,
      worker_trace n = pre ++ item_trace i ++ item_trace (i + 1) ++ post) := by
  refine ⟨?_, ?_, ?_⟩
  · intro n
    induction n with
    | zero => rfl
    | succ n ih =>
      unfold worker_trace dequeue_order
      rw [List.range_succ, List.flatMap_append, List.filterMap_append]
      unfold worker_trace dequeue_order at ih
      rw [ih]
      rfl
  · intro n
    induction n with
    | zero => simp [worker_trace, ok_run]
    | succ n ih =>
      unfold worker_trace
      rw [List.range_succ, List.flatMap_append]
      apply ok_run_append
      · exact ih
      · have hf := worker_trace_foldl n
        unfold worker_trace at hf
        rw [hf]
        simpa using ok_run_item n
  · intro n i hin
    refine ⟨(List.range i).flatMap item_trace,
      ((List.range (n - (i + 2))).map (fun k => i + 2 + k)).flatMap item_trace, ?_⟩
    have hsplit : List.range n =
        List.range (i + 2) ++ (List.range (n - (i + 2))).map (fun k => i + 2 + k) := by
      have := List.range_add (i + 2) (n - (i + 2))
      rw [Nat.add_sub_cancel' hin] at this
      exact this
    unfold worker_trace
    rw [hsplit, List.flatMap_append]
    have h2 : List.range (i + 2) = List.range i ++ [i, i + 1] := by
      rw [List.range_succ, List.range_succ]
      simp
    rw [h2, List.flatMap_append]
    simp [List.append_assoc]

/-- Witness for C1: in a three-item run, item 0's block immediately precedes
item 1's block, obtained from the theorem at `n = 3`, `i = 0`. -/
theorem claude_worker_fifo_single_flight_witness :
    ∃ pre post, worker_trace 3 = pre ++ item_trace 0 ++ item_trace 1 ++ post :=
  claude_worker_fifo_single_flight.2.2 3 0 (by decide)

end TelegramBot
